import Mathlib

/-!
Shallow embedding of the mvm RV32I simulator core (src/core) and proofs about it.

The embedding follows the source files bitfield.rs, instruction.rs, isa_module.rs,
register.rs, memory.rs and hart.rs.  Machine integers are modelled as `Nat` with
explicit reductions modulo `2 ^ w` where the Rust code relies on fixed-width
wrapping; Rust panics (out-of-bounds indexing, overflowing shifts in debug
builds) are modelled as `Option` failures or, where noted, with the release-mode
masked-shift semantics.
-/

namespace MVM

/-- Read the `width`-bit field of word `w` that starts at bit `lo`
(the `#[bits(lo..=hi, rw)]` getters generated for the bitfield structs). -/
def getBits (w lo width : Nat) : Nat := (w >>> lo) % 2 ^ width

/-- Write the `width`-bit field of word `w` that starts at bit `lo`
(the `with_*` setters generated for the bitfield structs); the value is
truncated to the declared width, never an error. -/
def setBits (w lo width v : Nat) : Nat :=
  (w % 2 ^ lo) + ((v % 2 ^ width) <<< lo) + ((w >>> (lo + width)) <<< (lo + width))

/-! ## bitfield.rs: instruction-shape field layouts

Each `*Bitfield` struct wraps one raw 32-bit word; the accessors below follow
the `#[bits(...)]` declarations of bitfield.rs.  The R-type `opcode` field is
declared there as `#[bits(0..=7, rw)] opcode: Opcode7`: an 8-bit range carrying
a 7-bit (`u7`) value, which the bitfield library rejects and which overlaps the
`rd` range `7..=11`.  Every other struct in the file (and the parallel drafts in
opcode.rs) declares opcode as the 7-bit range `0..=6`, which is also the layout
of spec §3; the accessors below therefore read 7 bits, while the declared 8-bit
range is kept separately (`opcodeDeclared`) for the analysis of that slip. -/

structure RType32Bitfield where
  raw : Nat
deriving DecidableEq

def RType32Bitfield.opcode (x : RType32Bitfield) : Nat := getBits x.raw 0 7
def RType32Bitfield.rd (x : RType32Bitfield) : Nat := getBits x.raw 7 5
def RType32Bitfield.funct3 (x : RType32Bitfield) : Nat := getBits x.raw 12 3
def RType32Bitfield.rs1 (x : RType32Bitfield) : Nat := getBits x.raw 15 5
def RType32Bitfield.rs2 (x : RType32Bitfield) : Nat := getBits x.raw 20 5
def RType32Bitfield.funct7 (x : RType32Bitfield) : Nat := getBits x.raw 25 7

/-- The R-type opcode field exactly as declared in bitfield.rs: bits `0..=7`,
an 8-bit range. -/
def RType32Bitfield.opcodeDeclared (x : RType32Bitfield) : Nat := getBits x.raw 0 8

/-- Setter for the R-type opcode field exactly as declared (bits `0..=7`). -/
def RType32Bitfield.with_opcodeDeclared (x : RType32Bitfield) (v : Nat) : RType32Bitfield :=
  ⟨setBits x.raw 0 8 v⟩

def RType32Bitfield.with_rd (x : RType32Bitfield) (v : Nat) : RType32Bitfield :=
  ⟨setBits x.raw 7 5 v⟩
def RType32Bitfield.with_funct3 (x : RType32Bitfield) (v : Nat) : RType32Bitfield :=
  ⟨setBits x.raw 12 3 v⟩
def RType32Bitfield.with_rs1 (x : RType32Bitfield) (v : Nat) : RType32Bitfield :=
  ⟨setBits x.raw 15 5 v⟩
def RType32Bitfield.with_rs2 (x : RType32Bitfield) (v : Nat) : RType32Bitfield :=
  ⟨setBits x.raw 20 5 v⟩
def RType32Bitfield.with_funct7 (x : RType32Bitfield) (v : Nat) : RType32Bitfield :=
  ⟨setBits x.raw 25 7 v⟩

structure IType32Bitfield where
  raw : Nat
deriving DecidableEq

def IType32Bitfield.opcode (x : IType32Bitfield) : Nat := getBits x.raw 0 7
def IType32Bitfield.rd (x : IType32Bitfield) : Nat := getBits x.raw 7 5
def IType32Bitfield.funct3 (x : IType32Bitfield) : Nat := getBits x.raw 12 3
def IType32Bitfield.rs1 (x : IType32Bitfield) : Nat := getBits x.raw 15 5
def IType32Bitfield.imm (x : IType32Bitfield) : Nat := getBits x.raw 20 12

structure IFenceType32Bitfield where
  raw : Nat
deriving DecidableEq

def IFenceType32Bitfield.opcode (x : IFenceType32Bitfield) : Nat := getBits x.raw 0 7
def IFenceType32Bitfield.rd (x : IFenceType32Bitfield) : Nat := getBits x.raw 7 5
def IFenceType32Bitfield.funct3 (x : IFenceType32Bitfield) : Nat := getBits x.raw 12 3
def IFenceType32Bitfield.rs1 (x : IFenceType32Bitfield) : Nat := getBits x.raw 15 5

structure SType32Bitfield where
  raw : Nat
deriving DecidableEq

def SType32Bitfield.opcode (x : SType32Bitfield) : Nat := getBits x.raw 0 7
def SType32Bitfield.funct3 (x : SType32Bitfield) : Nat := getBits x.raw 12 3
def SType32Bitfield.rs1 (x : SType32Bitfield) : Nat := getBits x.raw 15 5
def SType32Bitfield.rs2 (x : SType32Bitfield) : Nat := getBits x.raw 20 5

structure BType32Bitfield where
  raw : Nat
deriving DecidableEq

def BType32Bitfield.opcode (x : BType32Bitfield) : Nat := getBits x.raw 0 7
def BType32Bitfield.funct3 (x : BType32Bitfield) : Nat := getBits x.raw 12 3
def BType32Bitfield.rs1 (x : BType32Bitfield) : Nat := getBits x.raw 15 5
def BType32Bitfield.rs2 (x : BType32Bitfield) : Nat := getBits x.raw 20 5

structure UType32Bitfield where
  raw : Nat
deriving DecidableEq

def UType32Bitfield.opcode (x : UType32Bitfield) : Nat := getBits x.raw 0 7
def UType32Bitfield.rd (x : UType32Bitfield) : Nat := getBits x.raw 7 5

structure JType32Bitfield where
  raw : Nat
deriving DecidableEq

def JType32Bitfield.opcode (x : JType32Bitfield) : Nat := getBits x.raw 0 7
def JType32Bitfield.rd (x : JType32Bitfield) : Nat := getBits x.raw 7 5

/-! ## bitfield.rs: opcode and funct tables -/

/-- The closed set of legal 7-bit primary opcodes (`Opcode7Table`, bitfield.rs);
discriminants are the binary literals of the source. -/
inductive Opcode7Table
  | Zero
  | Load
  | LoadFloatingPoint
  | Custom0
  | MiscMemory
  | OpImmediate
  | AddUpperImmediateToPC
  | OpImmediate32
  | Store
  | StoreFloatingPoint
  | Custom1
  | AtomicMemoryOperation
  | OpcodeRegister
  | LoadUpperImmediate
  | OpRegister32
  | MultiplyAndAdd
  | MultiplyAndSubtract
  | NegMultiplyAndSubtract
  | NegMultiplyAndAdd
  | OpFloatingPoint
  | OpVector
  | Custom2Rv128
  | Branch
  | JumpAndLinkRegister
  | Reserved
  | JumpAndLink
  | System
  | OpVectorElement
  | Custom3Rv128
deriving DecidableEq

/-- `#[repr(u8)]` discriminant of each `Opcode7Table` entry. -/
def Opcode7Table.val : Opcode7Table → Nat
  | .Zero => 0b0000000
  | .Load => 0b0000011
  | .LoadFloatingPoint => 0b0000111
  | .Custom0 => 0b0001011
  | .MiscMemory => 0b0001111
  | .OpImmediate => 0b0010011
  | .AddUpperImmediateToPC => 0b0010111
  | .OpImmediate32 => 0b0011011
  | .Store => 0b0100011
  | .StoreFloatingPoint => 0b0100111
  | .Custom1 => 0b0101011
  | .AtomicMemoryOperation => 0b0101111
  | .OpcodeRegister => 0b0110011
  | .LoadUpperImmediate => 0b0110111
  | .OpRegister32 => 0b0111011
  | .MultiplyAndAdd => 0b1000011
  | .MultiplyAndSubtract => 0b1000111
  | .NegMultiplyAndSubtract => 0b1001011
  | .NegMultiplyAndAdd => 0b1001111
  | .OpFloatingPoint => 0b1010011
  | .OpVector => 0b1010111
  | .Custom2Rv128 => 0b1011011
  | .Branch => 0b1100011
  | .JumpAndLinkRegister => 0b1100111
  | .Reserved => 0b1101011
  | .JumpAndLink => 0b1101111
  | .System => 0b1110011
  | .OpVectorElement => 0b1110111
  | .Custom3Rv128 => 0b1111011

/-- `Opcode7Table::from_repr` (the strum `FromRepr` derive used through
`try_into` in the decoders): the inverse of `val`, `none` for any raw value
outside the declared set. -/
def Opcode7Table.fromRepr (n : Nat) : Option Opcode7Table :=
  if n = 0b0000000 then some .Zero
  else if n = 0b0000011 then some .Load
  else if n = 0b0000111 then some .LoadFloatingPoint
  else if n = 0b0001011 then some .Custom0
  else if n = 0b0001111 then some .MiscMemory
  else if n = 0b0010011 then some .OpImmediate
  else if n = 0b0010111 then some .AddUpperImmediateToPC
  else if n = 0b0011011 then some .OpImmediate32
  else if n = 0b0100011 then some .Store
  else if n = 0b0100111 then some .StoreFloatingPoint
  else if n = 0b0101011 then some .Custom1
  else if n = 0b0101111 then some .AtomicMemoryOperation
  else if n = 0b0110011 then some .OpcodeRegister
  else if n = 0b0110111 then some .LoadUpperImmediate
  else if n = 0b0111011 then some .OpRegister32
  else if n = 0b1000011 then some .MultiplyAndAdd
  else if n = 0b1000111 then some .MultiplyAndSubtract
  else if n = 0b1001011 then some .NegMultiplyAndSubtract
  else if n = 0b1001111 then some .NegMultiplyAndAdd
  else if n = 0b1010011 then some .OpFloatingPoint
  else if n = 0b1010111 then some .OpVector
  else if n = 0b1011011 then some .Custom2Rv128
  else if n = 0b1100011 then some .Branch
  else if n = 0b1100111 then some .JumpAndLinkRegister
  else if n = 0b1101011 then some .Reserved
  else if n = 0b1101111 then some .JumpAndLink
  else if n = 0b1110011 then some .System
  else if n = 0b1110111 then some .OpVectorElement
  else if n = 0b1111011 then some .Custom3Rv128
  else none

/-- `Funct3OpcodeTable` (bitfield.rs): funct3 sub-table of the OpRegister /
OpImmediate families. -/
inductive Funct3OpcodeTable
  | ADD | SLL | SLT | SLTU | XOR | SRA | OR | AND
deriving DecidableEq

def Funct3OpcodeTable.val : Funct3OpcodeTable → Nat
  | .ADD => 0b000
  | .SLL => 0b001
  | .SLT => 0b010
  | .SLTU => 0b011
  | .XOR => 0b100
  | .SRA => 0b101
  | .OR => 0b110
  | .AND => 0b111

inductive Funct3BranchTable
  | BEQ | BNE | BLT | BGE | BLTU | BGEU
deriving DecidableEq

def Funct3BranchTable.val : Funct3BranchTable → Nat
  | .BEQ => 0b000
  | .BNE => 0b001
  | .BLT => 0b100
  | .BGE => 0b101
  | .BLTU => 0b110
  | .BGEU => 0b111

inductive Funct3LoadTable
  | LB | LH | LW | LBU | LHU
deriving DecidableEq

def Funct3LoadTable.val : Funct3LoadTable → Nat
  | .LB => 0b000
  | .LH => 0b001
  | .LW => 0b010
  | .LBU => 0b100
  | .LHU => 0b101

inductive Funct3StoreTable
  | SB | SH | SW
deriving DecidableEq

def Funct3StoreTable.val : Funct3StoreTable → Nat
  | .SB => 0b000
  | .SH => 0b001
  | .SW => 0b010

inductive Funct3IntegerRegisterImmediateTable
  | ADDI | SLLI | SLTI | SLTIU | XORI | SRAI | ORI | ANDI
deriving DecidableEq

def Funct3IntegerRegisterImmediateTable.val : Funct3IntegerRegisterImmediateTable → Nat
  | .ADDI => 0b000
  | .SLLI => 0b001
  | .SLTI => 0b010
  | .SLTIU => 0b011
  | .XORI => 0b100
  | .SRAI => 0b101
  | .ORI => 0b110
  | .ANDI => 0b111

inductive Funct3SystemTable
  | ECALL
deriving DecidableEq

def Funct3SystemTable.val : Funct3SystemTable → Nat
  | .ECALL => 0b000

/-- `Funct3Uop` (bitfield.rs): tagged funct3 value, one tag per opcode family. -/
inductive Funct3Uop
  | Zero
  | Opcode (t : Funct3OpcodeTable)
  | Branch (t : Funct3BranchTable)
  | Load (t : Funct3LoadTable)
  | Store (t : Funct3StoreTable)
  | IntegerRegisterImmediate (t : Funct3IntegerRegisterImmediateTable)
  | System (t : Funct3SystemTable)
deriving DecidableEq

/-- The `Into<Funct3>` numeric value of a `Funct3Uop` (bitfield.rs; the `Zero`
variant has discriminant 0). -/
def Funct3Uop.val : Funct3Uop → Nat
  | .Zero => 0
  | .Opcode t => t.val
  | .Branch t => t.val
  | .Load t => t.val
  | .Store t => t.val
  | .IntegerRegisterImmediate t => t.val
  | .System t => t.val

/-- `Funct7Uop` (bitfield.rs). -/
inductive Funct7Uop
  | Logical
  | Arithmetic
deriving DecidableEq

def Funct7Uop.val : Funct7Uop → Nat
  | .Logical => 0
  | .Arithmetic => 0b0100000

/-- `Immediate32Uop` (bitfield.rs, temporary declaration in the source). -/
inductive Immediate32Uop
  | Zero
deriving DecidableEq

/-! ## instruction.rs: formats and descriptors -/

/-- `InstructionBaseSet` (isa_module.rs); the associated `RV32I`/`RV64I`
constants are the two variants. -/
inductive InstructionBaseSet
  | RV32I
  | RV64I
deriving DecidableEq

/-- `InstructionFormat` (instruction.rs): the tag of an encoding shape. -/
inductive InstructionFormat
  | IntegerRegisterImmediate
  | IntegerRegisterRegister
  | UnconditionalJump
  | ConditionBranch
  | Load
  | Store
  | Fence
  | ControlAndStatusRegister
  | TimeAndCounter
  | EnvironmentCallAndBreakpoint
deriving DecidableEq

/-- `InstructionDescriptor32` (instruction.rs). -/
structure InstructionDescriptor32 where
  base_set : InstructionBaseSet
  name : String
  format : InstructionFormat
  opcode : Option Opcode7Table
  funct3 : Option Funct3Uop
  funct7 : Option Funct7Uop
  imm11 : Option Immediate32Uop
deriving DecidableEq

/-- The `ADDI` descriptor constant (instruction.rs). -/
def ADDI : InstructionDescriptor32 :=
  { base_set := .RV32I
    name := "Add Immediate"
    format := .IntegerRegisterImmediate
    opcode := some .OpImmediate
    funct3 := some (.Opcode .ADD)
    funct7 := none
    imm11 := none }

/-- The `SLTI` descriptor constant (instruction.rs). -/
def SLTI : InstructionDescriptor32 :=
  { base_set := .RV32I
    name := "Set Less Than Immediate"
    format := .IntegerRegisterImmediate
    opcode := some .OpImmediate
    funct3 := some (.Opcode .SLT)
    funct7 := none
    imm11 := none }

/-- The `SLTIU` descriptor constant (instruction.rs). -/
def SLTIU : InstructionDescriptor32 :=
  { base_set := .RV32I
    name := "Set Less Than Immediate"
    format := .IntegerRegisterImmediate
    opcode := some .OpImmediate
    funct3 := some (.Opcode .SLTU)
    funct7 := none
    imm11 := none }

/-- The `ANDI` descriptor constant (instruction.rs).  The source declares its
funct3 as `Funct3Uop::Opcode(Funct3OpcodeTable::SLTU)` with a `TODO review`
comment — the same funct3 as SLTIU, not AND. -/
def ANDI : InstructionDescriptor32 :=
  { base_set := .RV32I
    name := "Set Less Than Immediate"
    format := .IntegerRegisterImmediate
    opcode := some .OpImmediate
    funct3 := some (.Opcode .SLTU)
    funct7 := none
    imm11 := none }

/-- `InstructionFormat32` (instruction.rs): a decoded instruction, one bitfield
view per variant. -/
inductive InstructionFormat32
  | IntegerRegisterImmediate (x : IType32Bitfield)
  | IntegerRegisterRegister (x : RType32Bitfield)
  | UnconditionalJump (x : JType32Bitfield)
  | ConditionBranch (x : BType32Bitfield)
  | Load (x : IType32Bitfield)
  | Store (x : SType32Bitfield)
  | Fence (x : IFenceType32Bitfield)
  | ControlAndStatusRegister (x : IType32Bitfield)
  | TimeAndCounter (x : IType32Bitfield)
  | EnvironmentCallAndBreakpoint (x : RType32Bitfield)
deriving DecidableEq

/-- The raw 32-bit word under a decoded instruction (the
`InstructionFormat32Union` shared storage: every variant is a reinterpretation
of the same word). -/
def InstructionFormat32.raw : InstructionFormat32 → Nat
  | .IntegerRegisterImmediate x => x.raw
  | .IntegerRegisterRegister x => x.raw
  | .UnconditionalJump x => x.raw
  | .ConditionBranch x => x.raw
  | .Load x => x.raw
  | .Store x => x.raw
  | .Fence x => x.raw
  | .ControlAndStatusRegister x => x.raw
  | .TimeAndCounter x => x.raw
  | .EnvironmentCallAndBreakpoint x => x.raw

/-- `GenericInstructionFormat::get_opcode` for `InstructionFormat32`
(instruction.rs): the opcode field of the wrapped word, identical bit range in
every variant. -/
def InstructionFormat32.get_opcode (self : InstructionFormat32) : Nat :=
  getBits self.raw 0 7

/-- The `check_o7f3f7` closure of `InstructionFormat32::is` (instruction.rs):
a match requires the descriptor to declare all three of opcode, funct3 and
funct7 (`Some`), each agreeing with the matching field of the instruction.  The source
compares enum values obtained with `.into()` conversions from the raw fields;
the comparison is modelled numerically through the declared
discriminants (`val`). -/
def check_o7f3f7 (descr : InstructionDescriptor32) (opcode funct3 funct7 : Nat) : Bool :=
  descr.opcode.map Opcode7Table.val == some opcode
    && descr.funct3.map Funct3Uop.val == some funct3
    && descr.funct7.map Funct7Uop.val == some funct7

/-- The `check_o7f3` closure of `InstructionFormat32::is` (instruction.rs):
opcode and funct3 agree and the descriptor declares no funct7. -/
def check_o7f3 (descr : InstructionDescriptor32) (opcode funct3 : Nat) : Bool :=
  descr.opcode.map Opcode7Table.val == some opcode
    && descr.funct3.map Funct3Uop.val == some funct3
    && descr.funct7 == none

/-- `InstructionFormat32::is` (instruction.rs): the match arms exactly as in the
source.  The I-type-like arms (IntegerRegisterImmediate, UnconditionalJump,
ControlAndStatusRegister, TimeAndCounter, Load), Store and Fence all go through
`check_o7f3f7`, calling `.funct7()` on bitfield views that declare no funct7
field; under the union reinterpretation of the repository (also used in
`match_instr`) that read denotes bits 31:25 of the shared raw word, which is
how it is modelled here.  Only ConditionBranch goes through `check_o7f3`. -/
def InstructionFormat32.is (self : InstructionFormat32) (descr : InstructionDescriptor32) :
    Bool :=
  match self with
  | .IntegerRegisterImmediate i_type =>
      check_o7f3f7 descr i_type.opcode i_type.funct3 (getBits i_type.raw 25 7)
  | .UnconditionalJump i_type =>
      check_o7f3f7 descr i_type.opcode (getBits i_type.raw 12 3) (getBits i_type.raw 25 7)
  | .ControlAndStatusRegister i_type =>
      check_o7f3f7 descr i_type.opcode i_type.funct3 (getBits i_type.raw 25 7)
  | .TimeAndCounter i_type =>
      check_o7f3f7 descr i_type.opcode i_type.funct3 (getBits i_type.raw 25 7)
  | .Load i_type =>
      check_o7f3f7 descr i_type.opcode i_type.funct3 (getBits i_type.raw 25 7)
  | .IntegerRegisterRegister r_type =>
      check_o7f3f7 descr r_type.opcode r_type.funct3 r_type.funct7
  | .EnvironmentCallAndBreakpoint r_type =>
      check_o7f3f7 descr r_type.opcode r_type.funct3 r_type.funct7
  | .ConditionBranch b_type => check_o7f3 descr b_type.opcode b_type.funct3
  | .Store s_type =>
      check_o7f3f7 descr s_type.opcode s_type.funct3 (getBits s_type.raw 25 7)
  | .Fence i_fence_type =>
      check_o7f3f7 descr i_fence_type.opcode i_fence_type.funct3
        (getBits i_fence_type.raw 25 7)

/-! ## isa_module.rs: the RV32I decoder -/

/-- `RV32I::decode` (isa_module.rs): read the primary opcode under the R-type
layout of the word (`union.integer_register_register.opcode()`), convert it
with `try_into` into the `Opcode7Table`, and wrap the same raw word under the
layout fixed for that opcode; every other table entry — including the arms the
source comments out as "Not used in RV32I" — falls to `None`. -/
def RV32I.decode (chomp : Nat) : Option InstructionFormat32 :=
  match Opcode7Table.fromRepr (getBits chomp 0 7) with
  | some .OpImmediate => some (.IntegerRegisterImmediate ⟨chomp⟩)
  | some .OpcodeRegister => some (.IntegerRegisterRegister ⟨chomp⟩)
  | some .JumpAndLink => some (.UnconditionalJump ⟨chomp⟩)
  | some .Branch => some (.ConditionBranch ⟨chomp⟩)
  | some .LoadUpperImmediate => some (.Load ⟨chomp⟩)
  | some .AddUpperImmediateToPC => some (.Load ⟨chomp⟩)
  | some .Store => some (.Store ⟨chomp⟩)
  | _ => none

/-! ## register.rs: the register file -/

inductive SavedBy
  | None
  | Caller
  | Callee
deriving DecidableEq

/-- `RegisterType` (register.rs): one row of the static register table. -/
structure RegisterType where
  pos : Int
  abi : String
  id : String
  saved_by : SavedBy
deriving DecidableEq

/-- The `PC` table row (register.rs): position -2. -/
def PC : RegisterType := ⟨-2, "pc", "", .None⟩

/-- The `ZERO` table row (register.rs): position -1. -/
def ZERO : RegisterType := ⟨-1, "zero", "x01", .None⟩

def RA : RegisterType := ⟨0, "ra", "x02", .Caller⟩
def SP : RegisterType := ⟨1, "sp", "x03", .Callee⟩
def GP : RegisterType := ⟨2, "gp", "x04", .None⟩
def TP : RegisterType := ⟨3, "tp", "x05", .None⟩
def T0 : RegisterType := ⟨4, "t0", "x06", .Caller⟩

/-- `REGISTERS_COUNT` (register.rs): the array ignores PC and ZERO. -/
def REGISTERS_COUNT : Nat := 30

/-- The Rust `as usize` cast on an `i32` register position: sign-extend and
reinterpret as a 64-bit unsigned index, so -1 becomes `2 ^ 64 - 1`. -/
def usizeOfI32 (i : Int) : Nat := (i % (2 : Int) ^ 64).toNat

/-- `Registers64` (register.rs): pc plus the 30-slot `[u64; REGISTERS_COUNT]`
array. -/
structure Registers64 where
  pc : Nat
  array : List Nat
deriving DecidableEq

/-- `Registers64::new` (register.rs): pc = 0, zeroed array, slot 0 set to 0 and
slot 2 set to `ram_size - 1`. -/
def Registers64.new (ram_size : Nat) : Registers64 :=
  { pc := 0
    array := (((List.replicate REGISTERS_COUNT 0).set 0 0).set 2 (ram_size - 1)) }

/-- `Registers64::get` (register.rs): PC and ZERO are special-cased (ZERO always
reads 0); any other row reads `array[pos as usize]`, with the out-of-bounds
panic modelled as `none`. -/
def Registers64.get (r : Registers64) (reg : RegisterType) : Option Nat :=
  if reg = PC then some r.pc
  else if reg = ZERO then some 0
  else r.array.get? (usizeOfI32 reg.pos)

/-- `Registers64::set` (register.rs): `self.array[rt.pos as usize] = v` with no
special case for PC or ZERO; the out-of-bounds panic is modelled as `none`. -/
def Registers64.set (r : Registers64) (rt : RegisterType) (v : Nat) : Option Registers64 :=
  let i := usizeOfI32 rt.pos
  if i < r.array.length then some { r with array := r.array.set i v } else none

/-- Reading architectural register `xn` through the table of register.rs: `x0`
is the ZERO row (always 0) and `xn`, `n ≥ 1`, is the row with pos `n - 1`, read
from the array as in `Registers64::get`.  The `self.registers[rs1]`
indexing sugar of the hart has no impl in the repository; it is modelled by this map. -/
def Registers64.readX (r : Registers64) (n : Nat) : Option Nat :=
  if n = 0 then some 0 else r.array.get? (n - 1)

/-- Writing architectural register `xn` through `Registers64::set` on the row
with pos `n - 1` (pos -1, the ZERO row, for `n = 0`); the `set` of register.rs
applies no zero-register special case. -/
def Registers64.writeX (r : Registers64) (n : Nat) (v : Nat) : Option Registers64 :=
  let i := if n = 0 then usizeOfI32 (-1) else n - 1
  if i < r.array.length then some { r with array := r.array.set i v } else none

/-! ## memory.rs: flat little-endian memory -/

/-- `VecMemory` (memory.rs): a flat byte vector. -/
structure VecMemory where
  ram : List Nat
deriving DecidableEq

/-- `VecMemory::new` (memory.rs): `vec![0; size]`. -/
def VecMemory.new (size : Nat) : VecMemory := ⟨List.replicate size 0⟩

/-- `read_byte` (memory.rs): `self.ram[address]`, panic on out-of-bounds
modelled as `none`. -/
def VecMemory.read_byte (m : VecMemory) (address : Nat) : Option Nat :=
  m.ram.get? address

/-- `read_half_word` (memory.rs): two bytes, little-endian. -/
def VecMemory.read_half_word (m : VecMemory) (address : Nat) : Option Nat := do
  let b0 ← m.read_byte address
  let b1 ← m.read_byte (address + 1)
  pure (b0 ||| (b1 <<< 8))

/-- `read_word` (memory.rs): two half-words, little-endian. -/
def VecMemory.read_word (m : VecMemory) (address : Nat) : Option Nat := do
  let h0 ← m.read_half_word address
  let h1 ← m.read_half_word (address + 2)
  pure (h0 ||| (h1 <<< 16))

/-- `write_byte` (memory.rs): `self.ram[address] = value`, panic on
out-of-bounds modelled as `none`. -/
def VecMemory.write_byte (m : VecMemory) (address value : Nat) : Option VecMemory :=
  if address < m.ram.length then some ⟨m.ram.set address value⟩ else none

/-- `write_word` (memory.rs): the loop runs `for i in 0..Word::BITS`, i.e. 32
iterations — the bit count, not the byte count — writing
`(value >> (i * Byte::BITS)) as u8` to `address + i`.  For `i ≥ 4` the shift
amount reaches 32: release builds mask it to the operand width
(`i * 8 mod 32`), modelled here; debug builds panic on the overflowing
shift. -/
def VecMemory.write_word (m : VecMemory) (address value : Nat) : Option VecMemory :=
  (List.range 32).foldlM
    (fun mem i => mem.write_byte (address + i) ((value >>> ((i * 8) % 32)) % 256)) m

/-! ## hart.rs: the RV32I hart -/

/-- `InstructionLength` (memory.rs): instruction widths, with the *bit* counts
as discriminants. -/
inductive InstructionLength
  | Byte
  | HalfWord
  | Word
  | DoubleWord
deriving DecidableEq

/-- The `repr` discriminant of `InstructionLength`: 8, 16, 32, 64 — bits, not
bytes. -/
def InstructionLength.val : InstructionLength → Nat
  | .Byte => 8
  | .HalfWord => 16
  | .Word => 32
  | .DoubleWord => 64

/-- `SimpleRV32IHart` (hart.rs). -/
structure SimpleRV32IHart where
  registers : Registers64
  ram : VecMemory
deriving DecidableEq

/-- `SimpleRV32IHart::new` (hart.rs). -/
def SimpleRV32IHart.new (memory_size : Nat) : SimpleRV32IHart :=
  { registers := Registers64.new memory_size
    ram := VecMemory.new memory_size }

/-- `SimpleRV32IHart::execute` (hart.rs): for an IntegerRegisterImmediate
instruction matching the ADDI descriptor, `registers[rd] =
registers[rs1].wrapping_add(imm)` where `imm` is the raw 12-bit immediate field
(`i_type.imm()`, no sign extension in the source) and the u64 wrap is modelled
as mod `2 ^ 64`; every other match arm of the source is an empty block, leaving
the hart unchanged with no error. -/
def SimpleRV32IHart.execute (h : SimpleRV32IHart) (formatted : InstructionFormat32) :
    Option SimpleRV32IHart :=
  match formatted with
  | .IntegerRegisterImmediate i_type =>
      if (InstructionFormat32.IntegerRegisterImmediate i_type).is ADDI then do
        let v ← h.registers.readX i_type.rs1
        let regs ← h.registers.writeX i_type.rd ((v + i_type.imm) % 2 ^ 64)
        pure { h with registers := regs }
      else some h
  | _ => some h

/-- `SimpleRV32IHart::fetch` (hart.rs): read the word at `pc as Word`, advance
`pc` by `InstructionLength::Word as RegisterValue64` — the discriminant 32, the
bit count — and decode the word.  The out-of-bounds read panic is modelled as
`none`; the u64 increment wraps mod `2 ^ 64`. -/
def SimpleRV32IHart.fetch (h : SimpleRV32IHart) :
    Option (Option InstructionFormat32 × SimpleRV32IHart) := do
  let data ← h.ram.read_word (h.registers.pc % 2 ^ 32)
  let regs := { h.registers with
                pc := (h.registers.pc + InstructionLength.Word.val) % 2 ^ 64 }
  pure (RV32I.decode data, { h with registers := regs })

/-- One full fetch/decode/identify/execute cycle (the `step()` of the spec): fetch
and decode via `SimpleRV32IHart::fetch`, then run `SimpleRV32IHart::execute` on
the decoded instruction; a decode failure is fatal to the step. -/
def SimpleRV32IHart.step (h : SimpleRV32IHart) : Option SimpleRV32IHart := do
  let (inst?, h') ← h.fetch
  match inst? with
  | some inst => h'.execute inst
  | none => none

/-! ## Theorems about the embedded code -/

/-- Claim C1: end-to-end ADDI scenario.  For a hart whose memory holds the
bytes 0x93, 0x02, 0x50, 0x00 (the little-endian word 0x00500293, ADDI x5, x0,
5) with PC = 0, the claim expects one full cycle to leave x5 = 5 and PC = 4.
The code instead leaves x5 = 0 (the ADDI descriptor declares no funct7, so the
`is(ADDI)` gate of the execute stage can never hold for an I-type instruction)
and sets PC = 32 (fetch adds the `InstructionLength::Word` discriminant, the
bit count 32, instead of 4 bytes). -/
theorem addi_end_to_end_code_behavior :
    (SimpleRV32IHart.step
        { registers := Registers64.new 4, ram := ⟨[0x93, 0x02, 0x50, 0x00]⟩ }).map
      (fun h => (h.registers.readX 5, h.registers.pc)) = some (some 0, 32) := by
  decide

/-- Claim C2: executing a decoded ADDI must set rd to rs1 plus the
sign-extended 12-bit immediate (0xFFF contributing -1).  On the word 0xFFF00093
(ADDI x1, x0, imm-field 0xFFF) the code decodes the expected I-type value and
reads the immediate field 0xFFF, but execute leaves the hart completely
unchanged: the `is(ADDI)` descriptor gate is false (ADDI declares no funct7
while the I-type arm requires one), so x1 is never written at all — and the add
that the gate guards uses the unsigned immediate with no sign extension. -/
theorem addi_sign_extension_code_behavior :
    RV32I.decode 0xFFF00093 = some (.IntegerRegisterImmediate ⟨0xFFF00093⟩)
      ∧ IType32Bitfield.imm ⟨0xFFF00093⟩ = 0xFFF
      ∧ (InstructionFormat32.IntegerRegisterImmediate ⟨0xFFF00093⟩).is ADDI = false
      ∧ (SimpleRV32IHart.new 8).execute (.IntegerRegisterImmediate ⟨0xFFF00093⟩)
          = some (SimpleRV32IHart.new 8) := by
  decide

/-- Claim C3, counterexample: the Load opcode 0x03 is in the declared legal
opcode table and is not an excluded family, yet `RV32I::decode` returns no
instruction for a word with that opcode, contradicting the claim that every
legal, included opcode decodes to its fixed variant. -/
theorem decode_load_opcode_counterexample :
    Opcode7Table.fromRepr 0x03 = some .Load ∧ RV32I.decode 0x00000003 = none := by
  decide

/-- Claim C3, amended: `RV32I::decode` is total and deterministic in the
primary opcode; it returns a decoded value exactly for the seven handled
opcodes — OpImmediate 0x13, OpcodeRegister 0x33, JumpAndLink 0x6F, Branch 0x63,
LoadUpperImmediate 0x37, AddUpperImmediateToPC 0x17 (both mapped to the Load
variant) and Store 0x23 — and no instruction for every other opcode, including
the unknown opcode 0b1111111 and legal-but-unhandled opcodes such as Load
0x03, never a default variant. -/
theorem decode_characterization (w : Nat) :
    RV32I.decode w =
      if getBits w 0 7 = 0b0010011 then some (.IntegerRegisterImmediate ⟨w⟩)
      else if getBits w 0 7 = 0b0110011 then some (.IntegerRegisterRegister ⟨w⟩)
      else if getBits w 0 7 = 0b1101111 then some (.UnconditionalJump ⟨w⟩)
      else if getBits w 0 7 = 0b1100011 then some (.ConditionBranch ⟨w⟩)
      else if getBits w 0 7 = 0b0110111 then some (.Load ⟨w⟩)
      else if getBits w 0 7 = 0b0010111 then some (.Load ⟨w⟩)
      else if getBits w 0 7 = 0b0100011 then some (.Store ⟨w⟩)
      else none := by
  have hb : getBits w 0 7 < 128 := Nat.mod_lt _ (by norm_num)
  revert hb
  unfold RV32I.decode
  generalize getBits w 0 7 = n
  intro hb
  interval_cases n <;> rfl

/-- Claim C4: the zero register must discard writes (`write(0, v)` a no-op,
`read(0) == 0`).  In the code `Registers64::get` does special-case ZERO and
reads 0, but `Registers64::set` has no such guard: it indexes the 30-slot array
at `pos as usize` = `(-1 as usize)` = 2^64 - 1, an out-of-bounds access (a
panic, modelled as `none`), not a no-op. -/
theorem zero_register_write_code_behavior :
    Registers64.get (Registers64.new 4) ZERO = some 0
      ∧ Registers64.set (Registers64.new 4) ZERO 42 = none := by
  decide

/-- Claim C5: for formats without a funct7 field (I/S/B/Fence) a descriptor
should match exactly when opcode and funct3 agree and the descriptor declares
no funct7.  On the decoded I-type word 0x00500293 and the ADDI descriptor,
opcode and funct3 agree and ADDI declares no funct7 — yet
`InstructionFormat32::is` returns false, because the I-type arm (like Store and
Fence) goes through the funct7-requiring check; only ConditionBranch uses the
no-funct7 rule. -/
theorem descriptor_match_funct7_rule_code_behavior :
    ADDI.opcode.map Opcode7Table.val = some (IType32Bitfield.opcode ⟨0x00500293⟩)
      ∧ ADDI.funct3.map Funct3Uop.val = some (IType32Bitfield.funct3 ⟨0x00500293⟩)
      ∧ ADDI.funct7 = none
      ∧ (InstructionFormat32.IntegerRegisterImmediate ⟨0x00500293⟩).is ADDI = false := by
  decide

/-- Claim C6: the declared descriptors should be pairwise disjoint in
(format, opcode, funct3, funct7).  The SLTIU and ANDI constants of
instruction.rs carry exactly the same tuple: ANDI is declared with funct3
`Opcode(SLTU)` (= 0b011, marked `TODO review` in the source) instead of AND. -/
theorem descriptor_disjointness_code_behavior :
    (ANDI.format, ANDI.opcode, ANDI.funct3, ANDI.funct7)
      = (SLTIU.format, SLTIU.opcode, SLTIU.funct3, SLTIU.funct7) := by
  decide

/-- Claim C7: the R-type round-trip at the declared field positions.  The
source declares the R-type opcode field as bits 0..=7 — an 8-bit range for a
7-bit value, overlapping the rd range 11:7 at bit 7.  Under the declared
ranges, building a word with opcode 0x13 and then rd = 1 and reading the opcode
field back yields 0x93, not the original 0x13. -/
theorem rtype_declared_opcode_range_code_behavior :
    (((⟨0⟩ : RType32Bitfield).with_opcodeDeclared 0x13).with_rd 1).rd = 1
      ∧ (((⟨0⟩ : RType32Bitfield).with_opcodeDeclared 0x13).with_rd 1).opcodeDeclared = 0x93
      ∧ (0x93 : Nat) ≠ 0x13 := by
  decide

/-- Claim C8: `write_word(a, v)` should store exactly the four bytes of v at
a..a+3 and leave every other byte unchanged.  The loop of the code runs for
`Word::BITS` = 32 iterations: on a 36-byte zeroed memory, writing 0x00500293 at
0 also rewrites byte 4 (and bytes 5..31) to the repeated little-endian pattern
— byte 4 becomes 0x93 where it was 0 — and on a 4-byte memory the same write
runs past the end and fails (a panic, modelled as `none`).  The four intended
bytes themselves are written little-endian, so reading the word back still
yields v. -/
theorem write_word_frame_code_behavior :
    ((VecMemory.new 36).write_word 0 0x00500293).bind (fun m => m.read_byte 4) = some 0x93
      ∧ (VecMemory.new 36).read_byte 4 = some 0
      ∧ ((VecMemory.new 36).write_word 0 0x00500293).bind (fun m => m.read_word 0)
          = some 0x00500293
      ∧ (VecMemory.new 4).write_word 0 0x00500293 = none := by
  decide

/-- Claim C9: a descriptor-matched instruction with no execute logic must raise
an explicit unimplemented-instruction condition.  The word 0x003100B3 (ADD x1,
x2, x3) decodes to the IntegerRegisterRegister variant, and execute returns the
hart completely unchanged with no error of any kind: the non-ADDI match arms of
the source are empty blocks. -/
theorem unimplemented_execute_code_behavior :
    RV32I.decode 0x003100B3 = some (.IntegerRegisterRegister ⟨0x003100B3⟩)
      ∧ (SimpleRV32IHart.new 4).execute (.IntegerRegisterRegister ⟨0x003100B3⟩)
          = some (SimpleRV32IHart.new 4) := by
  decide

/-- Claim C10: immediately after constructing a hart with N bytes of memory,
every byte at an address below N reads as 0 — `VecMemory::new` builds
`vec![0; size]`. -/
theorem memory_zero_initialized (N a : Nat) (h : a < N) :
    (SimpleRV32IHart.new N).ram.read_byte a = some 0 := by
  simp [SimpleRV32IHart.new, VecMemory.new, VecMemory.read_byte,
    List.get?_eq_getElem?, List.getElem?_replicate_of_lt h]

/-- Witness for C10 at N = 4, a = 2. -/
theorem memory_zero_initialized_witness :
    2 < 4 ∧ (SimpleRV32IHart.new 4).ram.read_byte 2 = some 0 :=
  ⟨by decide, memory_zero_initialized 4 2 (by decide)⟩

/-- Witness for the C3 amended characterization at the word 0x00500293. -/
theorem decode_characterization_witness :
    RV32I.decode 0x00500293 =
      if getBits 0x00500293 0 7 = 0b0010011 then
        some (.IntegerRegisterImmediate ⟨0x00500293⟩)
      else if getBits 0x00500293 0 7 = 0b0110011 then
        some (.IntegerRegisterRegister ⟨0x00500293⟩)
      else if getBits 0x00500293 0 7 = 0b1101111 then
        some (.UnconditionalJump ⟨0x00500293⟩)
      else if getBits 0x00500293 0 7 = 0b1100011 then
        some (.ConditionBranch ⟨0x00500293⟩)
      else if getBits 0x00500293 0 7 = 0b0110111 then some (.Load ⟨0x00500293⟩)
      else if getBits 0x00500293 0 7 = 0b0010111 then some (.Load ⟨0x00500293⟩)
      else if getBits 0x00500293 0 7 = 0b0100011 then some (.Store ⟨0x00500293⟩)
      else none :=
  decode_characterization 0x00500293

end MVM
